import Mathlib

/-!
Shallow embedding of the persistence and scheduling core of the bancho bot:

* `Store` (`src/core/bot/data/store.ts`): a crash-safe JSON store with a
  journal sidecar and write coalescing;
* `TaskManager` (`src/core/bot/managers/taskManager.ts`): the scheduler's
  invocation path with single-flight, timeout race and retry backoff;
* `EventManager` (`src/core/bot/managers/eventManager.ts`): the event bus;
* `PromiseCompletionSource` / `PromiseTimeoutSource`
  (`src/core/utilities/promises.ts`).

JSON serialization is performed by the JavaScript runtime
(`JSON.stringify` / `JSON.parse`); it is an external collaborator of the
repository and is therefore passed to the definitions as an abstract codec
`stringify : V → String`, `parse : String → Option V`
(`Store._parseJsonData` returns `[false, null]` exactly when `JSON.parse`
throws, which `Option.none` models).  Concrete instantiations in witnesses
use `toString` / `String.toNat?` for `V = Nat`.

The source is single-threaded JavaScript: asynchronous control flow is
interleaving at `await` suspension points, which the embedding represents
by explicit step functions applied in sequence.
-/

/-! ### Filesystem model for `Store` -/

/-- The on-disk state relevant to one store: the primary file
`<name>.json` and the sidecar `<name>.json-journal`.  `none` means the
file does not exist. -/
structure StoreFs where
  primary : Option String
  journal : Option String
deriving Repr, DecidableEq

/-- One filesystem effect performed by `Store`'s persistence code.
`truncateJournal` / `truncatePrimary` model `fs.promises.open(path, 'w')`,
which creates the file and truncates it to zero length. -/
inductive FsOp where
  | truncateJournal
  | truncatePrimary
  | putJournal (content : String)
  | putPrimary (content : String)
  | unlinkJournal
deriving Repr, DecidableEq

/-- Effect of a single filesystem operation. -/
def applyFsOp (fs : StoreFs) : FsOp → StoreFs
  | .truncateJournal => { fs with journal := some "" }
  | .truncatePrimary => { fs with primary := some "" }
  | .putJournal c => { fs with journal := some c }
  | .putPrimary c => { fs with primary := some c }
  | .unlinkJournal => { fs with journal := none }

/-- Run a list of filesystem operations in order. -/
def runFsOps (fs : StoreFs) (ops : List FsOp) : StoreFs :=
  ops.foldl applyFsOp fs

/-- The filesystem effects of `Store._write`, in source order: open the
journal with flag `'w'`, open the primary file with flag `'w'` (both
truncate), write `data.substring(0, data.length - 1)` to the journal,
write the full `data` to the primary file, unlink the journal.  (`close`
calls have no filesystem effect and are omitted.)  `data` is
`JSON.stringify(this.cache, null, '\t')`. -/
def Store.writeOps (data : String) : List FsOp :=
  [ .truncateJournal, .truncatePrimary,
    .putJournal (data.dropRight 1), .putPrimary data, .unlinkJournal ]

/-- The filesystem effects of initial default creation in the `Store`
constructor: `fs.writeFileSync(journal, data)`,
`fs.writeFileSync(this.name, data)`, `fs.unlinkSync(journal)`.  The
journal receives the full serialized `data` here, with no character
withheld. -/
def Store.createDefaultOps (data : String) : List FsOp :=
  [ .putJournal data, .putPrimary data, .unlinkJournal ]

/-- The filesystem state observed if the process dies after exactly the
first `k` effects of `Store._write`. -/
def Store.crashDuringSave (data : String) (fs : StoreFs) (k : Nat) : StoreFs :=
  runFsOps fs ((Store.writeOps data).take k)

/-- `Store._restoreFromJournal`: if a journal file exists, parse its
content; on success copy the journal's stored text over the primary file;
in both cases unlink the journal. -/
def Store.restoreFromJournal {V : Type} (parse : String → Option V)
    (fs : StoreFs) : StoreFs :=
  match fs.journal with
  | none => fs
  | some content =>
    match parse content with
    | some _ => { fs with primary := some content, journal := none }
    | none => { fs with journal := none }

/-- The `Store` constructor's load path (non-preloaded, with a supplied
default): restore from the journal, create the primary file from the
serialized defaults if it does not exist, then read and parse the primary
file, falling back to the defaults when parsing fails (the corrupted file
is left in place).  Returns the loaded cache value and the final
filesystem state. -/
def Store.load {V : Type} (stringify : V → String) (parse : String → Option V)
    (defaults : V) (fs0 : StoreFs) : V × StoreFs :=
  let fs1 := Store.restoreFromJournal parse fs0
  let fs2 :=
    if fs1.primary = none then
      runFsOps fs1 (Store.createDefaultOps (stringify defaults))
    else fs1
  match fs2.primary with
  | some content =>
    match parse content with
    | some v => (v, fs2)
    | none => (defaults, fs2)
  | none => (defaults, fs2)

/-! ### Write coalescing (`Store.save` / `Store.write` / `Store._write`) -/

/-- In-memory write-coalescing state of a `Store`: the cached value, the
serialized payload of the physical write currently in flight
(`_writePromiseSource` guards it; a list is used so that "at most one
physical write is in flight" is a provable property of the model rather
than a built-in assumption), whether the single shared
`_pendingWritePromiseSource` exists, and the committed content of the
primary file. -/
structure StoreWriteState (V : Type) where
  cache : V
  inflight : List String
  pending : Bool
  disk : String

/-- A quiescent store: no write in flight, no pending write. -/
def Store.initState {V : Type} (c0 : V) (d0 : String) : StoreWriteState V :=
  ⟨c0, [], false, d0⟩

/-- `Store.save`: when no write is in flight, start one immediately,
capturing the serialization of the current cache (the first statement of
the `async` `_write` runs synchronously); otherwise create (or join) the
single shared pending write. -/
def Store.saveStep {V : Type} (stringify : V → String)
    (s : StoreWriteState V) : StoreWriteState V :=
  if s.inflight.isEmpty then { s with inflight := [stringify s.cache] }
  else { s with pending := true }

/-- `Store.write(v)`: set the cache, then `save`. -/
def Store.writeStep {V : Type} (stringify : V → String) (v : V)
    (s : StoreWriteState V) : StoreWriteState V :=
  Store.saveStep stringify { s with cache := v }

/-- Completion of the physical write at the end of `Store._write`: the
in-flight payload is committed to disk, the active promise source resolves
and is cleared, and the pending write (if any) is promoted to the new
in-flight write, capturing the serialization of the cache at this
moment. -/
def Store.completeStep {V : Type} (stringify : V → String)
    (s : StoreWriteState V) : StoreWriteState V :=
  match s.inflight with
  | [] => s
  | d :: _ =>
    if s.pending then
      { s with disk := d, inflight := [stringify s.cache], pending := false }
    else
      { s with disk := d, inflight := [] }

/-- A synchronous call into the store, issued without awaiting. -/
inductive StoreOp (V : Type) where
  | setAndSave (v : V)
  | saveOnly
deriving Repr, DecidableEq

/-- Apply one synchronous store call. -/
def Store.applyOp {V : Type} (stringify : V → String)
    (s : StoreWriteState V) : StoreOp V → StoreWriteState V
  | .setAndSave v => Store.writeStep stringify v s
  | .saveOnly => Store.saveStep stringify s

/-- Run a block of synchronous store calls. -/
def Store.runOps {V : Type} (stringify : V → String)
    (s : StoreWriteState V) (ops : List (StoreOp V)) : StoreWriteState V :=
  ops.foldl (Store.applyOp stringify) s

/-- Any interleaved event on the store: a synchronous call or the
asynchronous completion of the in-flight physical write. -/
inductive StoreEvent (V : Type) where
  | call (op : StoreOp V)
  | completion
deriving Repr, DecidableEq

/-- Apply one interleaved event. -/
def Store.applyEvent {V : Type} (stringify : V → String)
    (s : StoreWriteState V) : StoreEvent V → StoreWriteState V
  | .call op => Store.applyOp stringify s op
  | .completion => Store.completeStep stringify s

/-- Run a sequence of interleaved events. -/
def Store.runEvents {V : Type} (stringify : V → String)
    (s : StoreWriteState V) (evs : List (StoreEvent V)) : StoreWriteState V :=
  evs.foldl (Store.applyEvent stringify) s

/-- Let the in-flight write and the single promoted pending write (if any)
run to completion: two completions always reach quiescence. -/
def Store.drain {V : Type} (stringify : V → String)
    (s : StoreWriteState V) : StoreWriteState V :=
  Store.completeStep stringify (Store.completeStep stringify s)

/-! ### Task scheduler (`TaskManager._invokeTask` and helpers) -/

/-- The fields of `TaskOptions`
(`src/core/architecture/decorators/service.decorators.ts`) read by the
invocation path: `timeout` (default 120000, `0` disables) and
`numReattempts` (default 1). -/
structure TaskOptions where
  timeout : Option Int
  numReattempts : Option Nat
deriving Repr, DecidableEq

/-- The persisted `TaskData` record (`taskManager.ts`). -/
structure TaskData where
  serviceId : String
  taskName : String
  taskSchedule : String
  timeNextRun : Int
  timeLastRun : Int
  totalRuns : Nat
  numFailures : Option Nat
  timeNextReattempt : Option Int
deriving Repr, DecidableEq

/-- In-memory scheduler state for one task: its persisted record, whether
`TaskManager._running` holds it, whether its cron job is started, the
number of times an invocation was skipped (the verbose "Skipped task" log
line), and the number of callback executions actually begun. -/
structure TaskState where
  data : TaskData
  running : Bool
  jobStarted : Bool
  skipLogCount : Nat
  executionsStarted : Nat
deriving Repr, DecidableEq

/-- The entry of `TaskManager._invokeTask`: if the task is already in
`_running` the invocation is skipped — only a verbose log line is emitted
and the method returns.  Otherwise the task is placed in `_running` and
execution proceeds.  Returns the updated state and whether a callback
execution actually started. -/
def TaskManager.beginInvoke (s : TaskState) : TaskState × Bool :=
  if s.running then
    ({ s with skipLogCount := s.skipLogCount + 1 }, false)
  else
    ({ s with running := true,
              executionsStarted := s.executionsStarted + 1 }, true)

/-- `TaskManager._getNextAttemptTime`: step-function backoff computed from
`task.data.numFailures ?? 0` at the time of the call. -/
def TaskManager.getNextAttemptTime (now : Int) (d : TaskData) : Int :=
  let reattempt := d.numFailures.getD 0
  if reattempt ≤ 3 then now + 15000
  else if reattempt ≤ 7 then now + 30000
  else if reattempt ≤ 15 then now + 45000
  else now + 60000

/-- How the `Promise.race` of the callback against the timeout settles
first: the callback resolves, the callback rejects, or the timeout fires
before the callback settles. -/
inductive RaceWinner where
  | callbackResolved
  | callbackRejected
  | timeoutFired
deriving Repr, DecidableEq

/-- Whether the awaited race rejects.  The timeout promise built by
`TaskManager._createTimeout` only ever calls `resolve`, so a race won by
the timeout resolves, and the `catch` branch of `_invokeTask` runs exactly
when the callback's rejection settles the race first. -/
def RaceWinner.settlesRejected : RaceWinner → Bool
  | .callbackRejected => true
  | _ => false

/-- `TaskManager._createTimeout`: the effective duration is
`options.timeout ?? 120000`; no timeout object is created when it is
`≤ 0`.  The model returns the duration of the created timeout. -/
def TaskManager.createTimeout (opts : TaskOptions) : Option Int :=
  let milliseconds := opts.timeout.getD 120000
  if milliseconds ≤ 0 then none else some milliseconds

/-- The remainder of `TaskManager._invokeTask` after the awaited
`Promise.race` settles, for a task that was placed in `_running`:

* race resolved (callback resolved, or the timeout fired first): the `try`
  block continues — `timeLastRun := startTime`, `timeNextRun` advanced to
  the oracle's next occurrence, `totalRuns` incremented; when this was a
  reattempt (`attemptNumber > 0`) the retry bookkeeping is cleared and the
  cron job restarted;
* race rejected: the `catch` branch — `_running` is cleared early; when
  `attemptNumber + 1 ≤ (numReattempts ?? 1)` the cron job is stopped,
  `numFailures := attemptNumber + 1` is recorded and
  `timeNextReattempt := _getNextAttemptTime(task)` computed from that new
  count, and a delayed reattempt is scheduled; otherwise the retry
  bookkeeping is cleared, `timeNextRun` recomputed from the oracle and the
  cron job restarted;
* in all cases the `finally` block removes the task from `_running`.

Returns the new state and whether a delayed reattempt was scheduled. -/
def TaskManager.finishInvoke (startTime oracleNext now : Int)
    (opts : TaskOptions) (winner : RaceWinner) (s : TaskState) :
    TaskState × Bool :=
  let attemptNumber := s.data.numFailures.getD 0
  if winner.settlesRejected then
    let nextAttemptNumber := attemptNumber + 1
    let maxAttempts := opts.numReattempts.getD 1
    if nextAttemptNumber ≤ maxAttempts then
      let d1 := { s.data with numFailures := some nextAttemptNumber }
      let d2 := { d1 with
        timeNextReattempt := some (TaskManager.getNextAttemptTime now d1) }
      ({ s with data := d2, jobStarted := false, running := false }, true)
    else
      let d1 := { s.data with timeNextRun := oracleNext,
                              numFailures := none,
                              timeNextReattempt := none }
      ({ s with data := d1, jobStarted := true, running := false }, false)
  else
    let d1 := { s.data with timeLastRun := startTime,
                            timeNextRun := oracleNext,
                            totalRuns := s.data.totalRuns + 1 }
    let d2 :=
      if attemptNumber > 0 then
        { d1 with numFailures := none, timeNextReattempt := none }
      else d1
    let started := if attemptNumber > 0 then true else s.jobStarted
    ({ s with data := d2, jobStarted := started, running := false }, false)

/-- A full `_invokeTask` call: the single-flight check, then — when not
skipped — the race against the timeout and its aftermath. -/
def TaskManager.invokeTask (startTime oracleNext now : Int)
    (opts : TaskOptions) (winner : RaceWinner) (s : TaskState) :
    TaskState × Bool :=
  match TaskManager.beginInvoke s with
  | (s1, false) => (s1, false)
  | (s1, true) => TaskManager.finishInvoke startTime oracleNext now opts winner s1

/-- Eventual outcome of the still-running callback after the timeout has
already won the race. -/
inductive CallbackOutcome where
  | resolves
  | rejects
deriving Repr, DecidableEq

/-- An invocation in which the timeout fires before the callback settles.
`Promise.race` settles once: `_invokeTask` resumes from the race with the
timeout's resolution, and no other handler is ever attached to the
callback's promise, so its eventual outcome `lateOutcome` is not observed
by the scheduler.  The definition therefore does not depend on
`lateOutcome`. -/
def TaskManager.invokeTaskTimeoutWin (startTime oracleNext now : Int)
    (opts : TaskOptions) (lateOutcome : CallbackOutcome) (s : TaskState) :
    TaskState × Bool :=
  TaskManager.invokeTask startTime oracleNext now opts .timeoutFired s

/-! ### Event bus (`EventManager`) -/

/-- `Bot.status` values (`type Status` in `src/core/bot.ts`). -/
inductive Status where
  | online
  | starting
  | stopping
  | offline
deriving Repr, DecidableEq

/-- A JavaScript value as far as the guard
`typeof event !== 'string'` in `EventManager.invoke` is concerned. -/
inductive JsName where
  | str (s : String)
  | notStr
deriving Repr, DecidableEq

/-- `typeof name === 'string'`. -/
def JsName.isString : JsName → Bool
  | .str _ => true
  | .notStr => false

/-- Behaviour of one registered handler when invoked: returns normally
(possibly a promise that resolves), throws synchronously, or returns a
promise that rejects. -/
inductive HandlerBehavior where
  | succeeds
  | throwsSync
  | rejectsAsync
deriving Repr, DecidableEq

/-- How the promise returned by the `async` method `invoke` eventually
settles; `queuedPending` marks the pre-ready queue path, whose promise
settles only when `flush` later delivers the event. -/
inductive InvokeOutcome where
  | resolves
  | rejects
  | queuedPending
deriving Repr, DecidableEq

/-- Result of a call to `EventManager.invoke`.  `syncThrow` records
whether the call threw synchronously at the call site: `invoke` is
declared `async`, so by JavaScript semantics every `throw` in its body —
including the non-string-name guard, which runs before any `await` —
becomes a rejection of the returned promise, and the call itself never
throws synchronously.  `handlersRun` lists the behaviours of the handlers
actually invoked, in registration order; `loggedErrors` counts the
`logger.error` calls made for handler failures. -/
structure InvokeResult where
  syncThrow : Bool
  outcome : InvokeOutcome
  handlersRun : List HandlerBehavior
  loggedErrors : Nat
deriving Repr, DecidableEq

/-- `EventManager.invoke` for one event name whose registered handlers
are `handlers`: throw (as a rejection) on a non-string name; queue when
the bot is neither online nor stopping; otherwise invoke every registered
handler, log and swallow each handler failure (synchronous throws are
caught, rejections are logged by the attached rejection continuation and
converted to resolutions), and resolve once `Promise.all` of the wrapped
promises resolves — which it always does. -/
def EventManager.invoke (status : Status) (handlers : List HandlerBehavior)
    (name : JsName) : InvokeResult :=
  match name with
  | .notStr => ⟨false, .rejects, [], 0⟩
  | .str _ =>
    if status ≠ Status.online ∧ status ≠ Status.stopping then
      ⟨false, .queuedPending, [], 0⟩
    else
      ⟨false, .resolves, handlers,
        (handlers.filter (fun h => h ≠ HandlerBehavior.succeeds)).length⟩

/-- An event held in `EventManager._queue`; `argsId` stands for the
identity of its argument list. -/
structure QueuedEvent where
  name : String
  argsId : Nat
deriving Repr, DecidableEq

/-- The `EventManager` state relevant to `flush`: the bot status, the
queue, and the log of dispatches performed so far (each `invoke` that
reached the handlers appends the event it delivered). -/
structure EventManagerState where
  status : Status
  queue : List QueuedEvent
  delivered : List QueuedEvent
deriving Repr, DecidableEq

/-- `EventManager.flush`: when the bot is online or stopping, iterate
`_queue` and re-`invoke` each queued event (resolving its original promise
when the dispatch completes).  The source never removes events from
`_queue`. -/
def EventManager.flush (s : EventManagerState) : EventManagerState :=
  if s.status = Status.online ∨ s.status = Status.stopping then
    { s with delivered := s.delivered ++ s.queue }
  else s

/-! ### Promise utilities (`src/core/utilities/promises.ts`) -/

/-- The settle flags of a `PromiseCompletionSource`. -/
structure PromiseCompletionSource where
  isFinishedField : Bool
  isResolvedField : Bool
  isRejectedField : Bool
deriving Repr, DecidableEq

/-- A freshly constructed `PromiseCompletionSource`. -/
def PromiseCompletionSource.init : PromiseCompletionSource :=
  ⟨false, false, false⟩

/-- `PromiseCompletionSource.setResult`: settle as resolved unless already
finished. -/
def PromiseCompletionSource.setResult (p : PromiseCompletionSource) :
    PromiseCompletionSource :=
  if p.isFinishedField then p else ⟨true, true, p.isRejectedField⟩

/-- `PromiseCompletionSource.setError`: settle as rejected unless already
finished. -/
def PromiseCompletionSource.setError (p : PromiseCompletionSource) :
    PromiseCompletionSource :=
  if p.isFinishedField then p else ⟨true, p.isResolvedField, true⟩

/-- The state of a `PromiseTimeoutSource`: its inner completion source,
whether the armed `setTimeout` can still fire, and its own private
`_isFinished` and `_isCancelled` fields.  No method of the class ever
assigns `_isFinished`. -/
structure PromiseTimeoutSource where
  source : PromiseCompletionSource
  timerArmed : Bool
  isFinishedField : Bool
  isCancelledField : Bool
deriving Repr, DecidableEq

/-- A freshly constructed `PromiseTimeoutSource`: the timer is armed
immediately. -/
def PromiseTimeoutSource.init : PromiseTimeoutSource :=
  ⟨PromiseCompletionSource.init, true, false, false⟩

/-- `PromiseTimeoutSource._execute`, reached when the armed timer fires
after `milliseconds`: run the closure; settle the inner source resolved on
normal completion and rejected when the closure throws. -/
def PromiseTimeoutSource.executeStep (o : CallbackOutcome)
    (t : PromiseTimeoutSource) : PromiseTimeoutSource :=
  if t.timerArmed then
    { t with timerArmed := false,
             source := match o with
               | .resolves => t.source.setResult
               | .rejects => t.source.setError }
  else t

/-- `PromiseTimeoutSource.cancel`: when the inner source has not settled,
mark cancelled, resolve the inner source (with `false`), and clear the
timer. -/
def PromiseTimeoutSource.cancel (t : PromiseTimeoutSource) :
    PromiseTimeoutSource :=
  if t.source.isFinishedField then t
  else { t with isCancelledField := true,
                source := t.source.setResult,
                timerArmed := false }

/-- The `isFinished` getter: returns the private `_isFinished` field. -/
def PromiseTimeoutSource.isFinished (t : PromiseTimeoutSource) : Bool :=
  t.isFinishedField

/-- The `isPending` getter: returns `!this._isFinished`. -/
def PromiseTimeoutSource.isPending (t : PromiseTimeoutSource) : Bool :=
  !t.isFinishedField

/-- An external event in the lifetime of a `PromiseTimeoutSource`: the
timer expiring (with the closure's outcome) or a `cancel()` call. -/
inductive TimeoutSourceOp where
  | fire (o : CallbackOutcome)
  | cancelCall
deriving Repr, DecidableEq

/-- Apply one lifetime event. -/
def PromiseTimeoutSource.applyOp (t : PromiseTimeoutSource) :
    TimeoutSourceOp → PromiseTimeoutSource
  | .fire o => PromiseTimeoutSource.executeStep o t
  | .cancelCall => PromiseTimeoutSource.cancel t

/-- Run a sequence of lifetime events from a given state. -/
def PromiseTimeoutSource.runOps (t : PromiseTimeoutSource)
    (ops : List TimeoutSourceOp) : PromiseTimeoutSource :=
  ops.foldl PromiseTimeoutSource.applyOp t

/-! ### Concrete witness codec -/

/-- A concrete executable codec for `V = Nat`, standing in for the
external `JSON.stringify` / `JSON.parse` pair in witnesses: parses a
nonempty all-digit string as a decimal number and rejects everything else
(in particular the empty string). -/
def parseNat (s : String) : Option Nat :=
  if s.data.all Char.isDigit ∧ s.data ≠ [] then
    some (s.data.foldl (fun acc c => acc * 10 + (c.toNat - 48)) 0)
  else none

/-- Invariant of the synchronous call path: a pending write exists only
while a physical write is in flight, and when no pending write exists the
in-flight payload (if any) is the serialization of the current cache. -/
def Store.Coalesced {V : Type} (stringify : V → String)
    (s : StoreWriteState V) : Prop :=
  (s.inflight = [] → s.pending = false)
  ∧ (s.pending = false → s.inflight = [] ∨ s.inflight = [stringify s.cache])

/-! ### Store coalescing theorems (C1) -/

lemma Store.coalesced_applyOp {V : Type} (stringify : V → String)
    (s : StoreWriteState V) (op : StoreOp V)
    (h : Store.Coalesced stringify s) :
    Store.Coalesced stringify (Store.applyOp stringify s op) := by
  obtain ⟨h1, h2⟩ := h
  obtain ⟨c, fl, p, dk⟩ := s
  cases op <;> cases fl <;>
    simp_all [Store.applyOp, Store.writeStep, Store.saveStep, Store.Coalesced]

lemma Store.coalesced_runOps {V : Type} (stringify : V → String)
    (ops : List (StoreOp V)) (s : StoreWriteState V)
    (h : Store.Coalesced stringify s) :
    Store.Coalesced stringify (Store.runOps stringify s ops) := by
  induction ops generalizing s with
  | nil => exact h
  | cons op rest ih =>
    exact ih _ (Store.coalesced_applyOp stringify s op h)

lemma Store.applyOp_inflight_ne {V : Type} (stringify : V → String)
    (s : StoreWriteState V) (op : StoreOp V) :
    (Store.applyOp stringify s op).inflight ≠ [] := by
  obtain ⟨c, fl, p, dk⟩ := s
  cases op <;> cases fl <;>
    simp [Store.applyOp, Store.writeStep, Store.saveStep]

lemma Store.runOps_inflight_ne_of_ne {V : Type} (stringify : V → String)
    (ops : List (StoreOp V)) (s : StoreWriteState V)
    (h : s.inflight ≠ []) :
    (Store.runOps stringify s ops).inflight ≠ [] := by
  induction ops generalizing s with
  | nil => exact h
  | cons op rest ih =>
    exact ih _ (Store.applyOp_inflight_ne stringify s op)

lemma Store.runOps_inflight_ne {V : Type} (stringify : V → String)
    (ops : List (StoreOp V)) (s : StoreWriteState V) (h : ops ≠ []) :
    (Store.runOps stringify s ops).inflight ≠ [] := by
  cases ops with
  | nil => exact absurd rfl h
  | cons op rest =>
    exact Store.runOps_inflight_ne_of_ne stringify rest _
      (Store.applyOp_inflight_ne stringify s op)

lemma Store.inflight_len_applyEvent {V : Type} (stringify : V → String)
    (s : StoreWriteState V) (ev : StoreEvent V)
    (h : s.inflight.length ≤ 1) :
    (Store.applyEvent stringify s ev).inflight.length ≤ 1 := by
  obtain ⟨c, fl, p, dk⟩ := s
  cases ev with
  | call op =>
    cases op <;> cases fl <;>
      simp_all [Store.applyEvent, Store.applyOp, Store.writeStep,
        Store.saveStep]
  | completion =>
    cases fl <;> cases p <;>
      simp_all [Store.applyEvent, Store.completeStep]

/-- Draining a coalesced state with a write in flight commits the
serialization of the current cache and reaches quiescence. -/
lemma Store.drain_of_coalesced {V : Type} (stringify : V → String)
    (s : StoreWriteState V) (hinv : Store.Coalesced stringify s)
    (hne : s.inflight ≠ []) :
    (Store.drain stringify s).disk = stringify s.cache
    ∧ (Store.drain stringify s).inflight = []
    ∧ (Store.drain stringify s).pending = false := by
  obtain ⟨h1, h2⟩ := hinv
  obtain ⟨c, fl, p, dk⟩ := s
  cases fl with
  | nil => exact absurd rfl hne
  | cons d t =>
    cases p with
    | false =>
      rcases h2 rfl with hnil | hone
      · exact absurd hnil hne
      · obtain ⟨hd, ht⟩ : d = stringify c ∧ t = [] := by
          simpa using hone
        subst hd; subst ht
        simp [Store.drain, Store.completeStep]
    | true =>
      simp [Store.drain, Store.completeStep]

/-- C1: for every nonempty block of `write`/`save` calls issued without
awaiting between them, once the in-flight write and the single coalesced
pending write complete, the persisted primary file holds exactly the
serialization of the last value set before the final write began (the
cache current when the pending write was promoted), and the store is
quiescent; moreover, over arbitrary interleavings of calls and
completions, at most one physical write is ever in flight. -/
theorem store_write_coalescing {V : Type} (stringify : V → String)
    (c0 : V) (d0 : String) (ops : List (StoreOp V))
    (evs : List (StoreEvent V)) (h : ops ≠ []) :
    (Store.drain stringify (Store.runOps stringify (Store.initState c0 d0) ops)).disk
        = stringify (Store.runOps stringify (Store.initState c0 d0) ops).cache
    ∧ (Store.drain stringify (Store.runOps stringify (Store.initState c0 d0) ops)).inflight = []
    ∧ (Store.drain stringify (Store.runOps stringify (Store.initState c0 d0) ops)).pending = false
    ∧ (Store.runEvents stringify (Store.initState c0 d0) evs).inflight.length ≤ 1 := by
  have hinit : Store.Coalesced stringify (Store.initState (V := V) c0 d0) :=
    ⟨fun _ => rfl, fun _ => Or.inl rfl⟩
  have hinv := Store.coalesced_runOps stringify ops _ hinit
  have hne := Store.runOps_inflight_ne stringify ops (Store.initState c0 d0) h
  obtain ⟨hd, hi, hp⟩ := Store.drain_of_coalesced stringify _ hinv hne
  refine ⟨hd, hi, hp, ?_⟩
  induction evs using List.reverseRecOn with
  | nil => simp [Store.runEvents, Store.initState]
  | append_singleton rest ev ih =>
    rw [Store.runEvents, List.foldl_append, List.foldl_cons, List.foldl_nil]
    exact Store.inflight_len_applyEvent stringify _ ev ih

/-- Witness for C1 at a concrete input: two `write` calls back to back on
a `Nat` store, and an interleaving with a completion between two calls. -/
theorem store_write_coalescing_witness :
    (Store.drain toString (Store.runOps toString (Store.initState (0 : Nat) "0")
        [StoreOp.setAndSave 1, StoreOp.setAndSave 2])).disk
      = toString (Store.runOps toString (Store.initState (0 : Nat) "0")
        [StoreOp.setAndSave 1, StoreOp.setAndSave 2]).cache
    ∧ (Store.drain toString (Store.runOps toString (Store.initState (0 : Nat) "0")
        [StoreOp.setAndSave 1, StoreOp.setAndSave 2])).inflight = []
    ∧ (Store.drain toString (Store.runOps toString (Store.initState (0 : Nat) "0")
        [StoreOp.setAndSave 1, StoreOp.setAndSave 2])).pending = false
    ∧ (Store.runEvents toString (Store.initState (0 : Nat) "0")
        [StoreEvent.call (StoreOp.setAndSave 1), StoreEvent.completion,
         StoreEvent.call (StoreOp.setAndSave 2)]).inflight.length ≤ 1 :=
  store_write_coalescing toString 0 "0"
    [StoreOp.setAndSave 1, StoreOp.setAndSave 2]
    [StoreEvent.call (StoreOp.setAndSave 1), StoreEvent.completion,
     StoreEvent.call (StoreOp.setAndSave 2)]
    (List.cons_ne_nil _ _)

/-! ### Store crash-safety and protocol theorems (C2, C3, C4) -/

/-- C2: refuted on the code.  `Store._write` opens the primary file with
flag `'w'` — truncating it — before any journal content is written.  With
the previously committed primary content `"7"` and a new serialization
`"8"`, a crash right after the two `open` calls (crash point `k = 2`)
leaves a journal equal to `""`, which does not parse, while the primary
file holds `""` instead of the last committed content `"7"`. -/
theorem store_crash_truncates_primary_before_journal :
    (Store.crashDuringSave "8" ⟨some "7", none⟩ 2).journal = some ""
    ∧ parseNat "" = none
    ∧ (Store.crashDuringSave "8" ⟨some "7", none⟩ 2).primary = some ""
    ∧ (Store.crashDuringSave "8" ⟨some "7", none⟩ 2).primary ≠ some "7" := by
  refine ⟨rfl, rfl, rfl, ?_⟩
  decide

/-- C3: on load, a journal whose content parses has its stored text copied
into the primary file and its parsed value loaded; a journal whose content
does not parse leaves the primary untouched and the primary's value is
loaded; in both cases the journal file is deleted. -/
theorem store_load_journal_recovery {V : Type} (stringify : V → String)
    (parse : String → Option V) (defaults v w : V) (j1 j2 p : String)
    (hj1 : parse j1 = some v) (hj2 : parse j2 = none)
    (hp : parse p = some w) :
    Store.load stringify parse defaults ⟨some p, some j1⟩ = (v, ⟨some j1, none⟩)
    ∧ Store.load stringify parse defaults ⟨some p, some j2⟩ = (w, ⟨some p, none⟩) := by
  constructor <;>
    simp [Store.load, Store.restoreFromJournal, hj1, hj2, hp]

/-- Witness for C3 with the `Nat` codec: primary `"7"`, a parseable
journal `"42"` and an unparseable journal `"x"`. -/
theorem store_load_journal_recovery_witness :
    Store.load toString parseNat 0 ⟨some "7", some "42"⟩
        = (42, ⟨some "42", none⟩)
    ∧ Store.load toString parseNat 0 ⟨some "7", some "x"⟩
        = (7, ⟨some "7", none⟩) :=
  store_load_journal_recovery toString parseNat 0 42 7 "42" "x" "7"
    (by decide) (by decide) (by decide)

/-- C4 counterexample: during initial default creation the `Store`
constructor writes the FULL serialized data to the journal
(`fs.writeFileSync(journal, data)`), not the data minus its final
character as the claimed shared protocol requires.  With `data = "[1]"`,
after the constructor's journal write the journal holds `"[1]"`, which
differs from `"[1"`. -/
theorem store_creation_journal_not_truncated :
    (runFsOps ⟨none, none⟩ ((Store.createDefaultOps "[1]").take 1)).journal
        = some "[1]"
    ∧ (runFsOps ⟨none, none⟩ ((Store.writeOps "[1]").take 3)).journal
        = some "[1"
    ∧ ("[1]" : String) ≠ ("[1]" : String).dropRight 1 := by
  refine ⟨rfl, by decide, by decide⟩

/-- C4 as amended: both persistence paths write the journal, then the
primary file, then delete the journal, and both end with the primary file
holding the full serialized data and no journal on disk; but only
`Store._write` withholds the final character of the journal content —
initial default creation writes the full data to the journal (and the save
path additionally truncates both files on open before writing). -/
theorem store_atomic_write_protocol (data : String) (fs : StoreFs) :
    (runFsOps fs ((Store.writeOps data).take 3)).journal
        = some (data.dropRight 1)
    ∧ (runFsOps fs (Store.writeOps data)).primary = some data
    ∧ (runFsOps fs (Store.writeOps data)).journal = none
    ∧ (runFsOps fs ((Store.createDefaultOps data).take 1)).journal = some data
    ∧ (runFsOps fs (Store.createDefaultOps data)).primary = some data
    ∧ (runFsOps fs (Store.createDefaultOps data)).journal = none :=
  ⟨rfl, rfl, rfl, rfl, rfl, rfl⟩

/-! ### Task scheduler theorems (C5, C6, C9) -/

/-- C5: invoking a task that is already running is a no-op — the task is
skipped with only a verbose log line, no callback execution starts and no
task state is mutated; and a full invocation (not skipped) releases the
single-flight slot in every terminal case: callback success, callback
failure and timeout. -/
theorem task_single_flight (s s2 : TaskState)
    (startTime oracleNext now : Int) (opts : TaskOptions)
    (winner winner2 : RaceWinner)
    (hrun : s.running = true) (hrun2 : s2.running = false) :
    TaskManager.invokeTask startTime oracleNext now opts winner s
        = ({ s with skipLogCount := s.skipLogCount + 1 }, false)
    ∧ (TaskManager.invokeTask startTime oracleNext now opts winner s).1.data
        = s.data
    ∧ (TaskManager.invokeTask startTime oracleNext now opts winner s).1.executionsStarted
        = s.executionsStarted
    ∧ (TaskManager.invokeTask startTime oracleNext now opts winner2 s2).1.running
        = false := by
  refine ⟨?_, ?_, ?_, ?_⟩
  · simp [TaskManager.invokeTask, TaskManager.beginInvoke, hrun]
  · simp [TaskManager.invokeTask, TaskManager.beginInvoke, hrun]
  · simp [TaskManager.invokeTask, TaskManager.beginInvoke, hrun]
  · cases winner2 <;>
      simp [TaskManager.invokeTask, TaskManager.beginInvoke,
        TaskManager.finishInvoke, RaceWinner.settlesRejected, hrun2] <;>
      split <;> simp

/-- Witness for C5 at a concrete input. -/
theorem task_single_flight_witness :
    TaskManager.invokeTask 1 2 3 ⟨none, some 2⟩ RaceWinner.callbackResolved
        ⟨⟨"svc", "t", "* * * * * *", 0, 0, 0, none, none⟩, true, true, 0, 0⟩
      = (⟨⟨"svc", "t", "* * * * * *", 0, 0, 0, none, none⟩, true, true, 1, 0⟩, false)
    ∧ (TaskManager.invokeTask 1 2 3 ⟨none, some 2⟩ RaceWinner.callbackResolved
        ⟨⟨"svc", "t", "* * * * * *", 0, 0, 0, none, none⟩, true, true, 0, 0⟩).1.data
      = (⟨⟨"svc", "t", "* * * * * *", 0, 0, 0, none, none⟩, true, true, 0, 0⟩ : TaskState).data
    ∧ (TaskManager.invokeTask 1 2 3 ⟨none, some 2⟩ RaceWinner.callbackResolved
        ⟨⟨"svc", "t", "* * * * * *", 0, 0, 0, none, none⟩, true, true, 0, 0⟩).1.executionsStarted
      = (⟨⟨"svc", "t", "* * * * * *", 0, 0, 0, none, none⟩, true, true, 0, 0⟩ : TaskState).executionsStarted
    ∧ (TaskManager.invokeTask 1 2 3 ⟨none, some 2⟩ RaceWinner.callbackRejected
        ⟨⟨"svc", "t", "* * * * * *", 0, 0, 0, none, none⟩, false, true, 0, 0⟩).1.running
      = false :=
  task_single_flight
    ⟨⟨"svc", "t", "* * * * * *", 0, 0, 0, none, none⟩, true, true, 0, 0⟩
    ⟨⟨"svc", "t", "* * * * * *", 0, 0, 0, none, none⟩, false, true, 0, 0⟩
    1 2 3 ⟨none, some 2⟩ RaceWinner.callbackResolved RaceWinner.callbackRejected
    rfl rfl

/-- C6: with `numReattempts = 2`, three consecutive failures record
`numFailures` 1 then 2 with retry delays of 15000ms each, and the third,
terminal failure clears `numFailures` and `timeNextReattempt`, recomputes
`timeNextRun` from the schedule oracle, restarts the cron job and
schedules no further retry; and the retry delay is the step function of
the recorded failure count: 15000ms for counts up to 3, 30000ms up to 7,
45000ms up to 15, 60000ms beyond. -/
theorem task_retry_backoff (d : TaskData) (hnf : d.numFailures = none)
    (t1 t2 t3 o1 o2 o3 now : Int) (n : Nat) (st1 st2 st3 : TaskState × Bool)
    (h1 : st1 = TaskManager.invokeTask t1 o1 t1 ⟨none, some 2⟩
        RaceWinner.callbackRejected ⟨d, false, true, 0, 0⟩)
    (h2 : st2 = TaskManager.invokeTask t2 o2 t2 ⟨none, some 2⟩
        RaceWinner.callbackRejected st1.1)
    (h3 : st3 = TaskManager.invokeTask t3 o3 t3 ⟨none, some 2⟩
        RaceWinner.callbackRejected st2.1) :
    (st1.1.data.numFailures = some 1
      ∧ st1.1.data.timeNextReattempt = some (t1 + 15000) ∧ st1.2 = true)
    ∧ (st2.1.data.numFailures = some 2
      ∧ st2.1.data.timeNextReattempt = some (t2 + 15000) ∧ st2.2 = true)
    ∧ (st3.1.data.numFailures = none ∧ st3.1.data.timeNextReattempt = none
      ∧ st3.1.data.timeNextRun = o3 ∧ st3.1.jobStarted = true ∧ st3.2 = false)
    ∧ (n ≤ 3 → TaskManager.getNextAttemptTime now { d with numFailures := some n }
        = now + 15000)
    ∧ (4 ≤ n → n ≤ 7 →
        TaskManager.getNextAttemptTime now { d with numFailures := some n }
        = now + 30000)
    ∧ (8 ≤ n → n ≤ 15 →
        TaskManager.getNextAttemptTime now { d with numFailures := some n }
        = now + 45000)
    ∧ (16 ≤ n →
        TaskManager.getNextAttemptTime now { d with numFailures := some n }
        = now + 60000) := by
  subst h1; subst h2; subst h3
  refine ⟨?_, ?_, ?_, ?_, ?_, ?_, ?_⟩
  · simp [TaskManager.invokeTask, TaskManager.beginInvoke,
      TaskManager.finishInvoke, TaskManager.getNextAttemptTime,
      RaceWinner.settlesRejected, hnf]
  · simp [TaskManager.invokeTask, TaskManager.beginInvoke,
      TaskManager.finishInvoke, TaskManager.getNextAttemptTime,
      RaceWinner.settlesRejected, hnf]
  · simp [TaskManager.invokeTask, TaskManager.beginInvoke,
      TaskManager.finishInvoke, TaskManager.getNextAttemptTime,
      RaceWinner.settlesRejected, hnf]
  · intro hn
    simp [TaskManager.getNextAttemptTime, hn]
  · intro hn4 hn7
    have hgt : ¬ n ≤ 3 := by omega
    simp [TaskManager.getNextAttemptTime, hgt, hn7]
  · intro hn8 hn15
    have hgt3 : ¬ n ≤ 3 := by omega
    have hgt7 : ¬ n ≤ 7 := by omega
    simp [TaskManager.getNextAttemptTime, hgt3, hgt7, hn15]
  · intro hn16
    have hgt3 : ¬ n ≤ 3 := by omega
    have hgt7 : ¬ n ≤ 7 := by omega
    have hgt15 : ¬ n ≤ 15 := by omega
    simp [TaskManager.getNextAttemptTime, hgt3, hgt7, hgt15]

/-- Witness for C6 at a concrete input: a task record with no prior
failures, failures at times 100, 300 and 500, and `n = 5` for the step
function. -/
theorem task_retry_backoff_witness :
    ((TaskManager.invokeTask 100 200 100 ⟨none, some 2⟩
        RaceWinner.callbackRejected
        ⟨⟨"svc", "t", "* * * * * *", 0, 0, 0, none, none⟩, false, true, 0, 0⟩).1.data.numFailures
        = some 1
      ∧ (TaskManager.invokeTask 100 200 100 ⟨none, some 2⟩
        RaceWinner.callbackRejected
        ⟨⟨"svc", "t", "* * * * * *", 0, 0, 0, none, none⟩, false, true, 0, 0⟩).1.data.timeNextReattempt
        = some (100 + 15000)
      ∧ (TaskManager.invokeTask 100 200 100 ⟨none, some 2⟩
        RaceWinner.callbackRejected
        ⟨⟨"svc", "t", "* * * * * *", 0, 0, 0, none, none⟩, false, true, 0, 0⟩).2 = true)
    ∧ ((TaskManager.invokeTask 300 400 300 ⟨none, some 2⟩
        RaceWinner.callbackRejected
        (TaskManager.invokeTask 100 200 100 ⟨none, some 2⟩
          RaceWinner.callbackRejected
          ⟨⟨"svc", "t", "* * * * * *", 0, 0, 0, none, none⟩, false, true, 0, 0⟩).1).1.data.numFailures
        = some 2
      ∧ (TaskManager.invokeTask 300 400 300 ⟨none, some 2⟩
        RaceWinner.callbackRejected
        (TaskManager.invokeTask 100 200 100 ⟨none, some 2⟩
          RaceWinner.callbackRejected
          ⟨⟨"svc", "t", "* * * * * *", 0, 0, 0, none, none⟩, false, true, 0, 0⟩).1).1.data.timeNextReattempt
        = some (300 + 15000)
      ∧ (TaskManager.invokeTask 300 400 300 ⟨none, some 2⟩
        RaceWinner.callbackRejected
        (TaskManager.invokeTask 100 200 100 ⟨none, some 2⟩
          RaceWinner.callbackRejected
          ⟨⟨"svc", "t", "* * * * * *", 0, 0, 0, none, none⟩, false, true, 0, 0⟩).1).2 = true)
    ∧ ((TaskManager.invokeTask 500 600 500 ⟨none, some 2⟩
        RaceWinner.callbackRejected
        (TaskManager.invokeTask 300 400 300 ⟨none, some 2⟩
          RaceWinner.callbackRejected
          (TaskManager.invokeTask 100 200 100 ⟨none, some 2⟩
            RaceWinner.callbackRejected
            ⟨⟨"svc", "t", "* * * * * *", 0, 0, 0, none, none⟩, false, true, 0, 0⟩).1).1).1.data.numFailures
        = none
      ∧ (TaskManager.invokeTask 500 600 500 ⟨none, some 2⟩
        RaceWinner.callbackRejected
        (TaskManager.invokeTask 300 400 300 ⟨none, some 2⟩
          RaceWinner.callbackRejected
          (TaskManager.invokeTask 100 200 100 ⟨none, some 2⟩
            RaceWinner.callbackRejected
            ⟨⟨"svc", "t", "* * * * * *", 0, 0, 0, none, none⟩, false, true, 0, 0⟩).1).1).1.data.timeNextReattempt
        = none
      ∧ (TaskManager.invokeTask 500 600 500 ⟨none, some 2⟩
        RaceWinner.callbackRejected
        (TaskManager.invokeTask 300 400 300 ⟨none, some 2⟩
          RaceWinner.callbackRejected
          (TaskManager.invokeTask 100 200 100 ⟨none, some 2⟩
            RaceWinner.callbackRejected
            ⟨⟨"svc", "t", "* * * * * *", 0, 0, 0, none, none⟩, false, true, 0, 0⟩).1).1).1.data.timeNextRun
        = 600
      ∧ (TaskManager.invokeTask 500 600 500 ⟨none, some 2⟩
        RaceWinner.callbackRejected
        (TaskManager.invokeTask 300 400 300 ⟨none, some 2⟩
          RaceWinner.callbackRejected
          (TaskManager.invokeTask 100 200 100 ⟨none, some 2⟩
            RaceWinner.callbackRejected
            ⟨⟨"svc", "t", "* * * * * *", 0, 0, 0, none, none⟩, false, true, 0, 0⟩).1).1).1.jobStarted
        = true
      ∧ (TaskManager.invokeTask 500 600 500 ⟨none, some 2⟩
        RaceWinner.callbackRejected
        (TaskManager.invokeTask 300 400 300 ⟨none, some 2⟩
          RaceWinner.callbackRejected
          (TaskManager.invokeTask 100 200 100 ⟨none, some 2⟩
            RaceWinner.callbackRejected
            ⟨⟨"svc", "t", "* * * * * *", 0, 0, 0, none, none⟩, false, true, 0, 0⟩).1).1).2 = false)
    ∧ ((5 : Nat) ≤ 3 → TaskManager.getNextAttemptTime 50
        { (⟨"svc", "t", "* * * * * *", 0, 0, 0, none, none⟩ : TaskData) with numFailures := some 5 }
        = 50 + 15000)
    ∧ (4 ≤ (5 : Nat) → (5 : Nat) ≤ 7 → TaskManager.getNextAttemptTime 50
        { (⟨"svc", "t", "* * * * * *", 0, 0, 0, none, none⟩ : TaskData) with numFailures := some 5 }
        = 50 + 30000)
    ∧ (8 ≤ (5 : Nat) → (5 : Nat) ≤ 15 → TaskManager.getNextAttemptTime 50
        { (⟨"svc", "t", "* * * * * *", 0, 0, 0, none, none⟩ : TaskData) with numFailures := some 5 }
        = 50 + 45000)
    ∧ (16 ≤ (5 : Nat) → TaskManager.getNextAttemptTime 50
        { (⟨"svc", "t", "* * * * * *", 0, 0, 0, none, none⟩ : TaskData) with numFailures := some 5 }
        = 50 + 60000) :=
  task_retry_backoff ⟨"svc", "t", "* * * * * *", 0, 0, 0, none, none⟩ rfl
    100 300 500 200 400 600 50 5 _ _ _ rfl rfl rfl

/-- C9: for every task with a positive effective timeout — on a regular
run or on a reattempt invocation — when the timeout fires before the
callback settles, the invocation takes the success path: `timeLastRun` is
set to the start time, `timeNextRun` advances to the oracle's next
occurrence, `totalRuns` is incremented, the retry bookkeeping is cleared
when the invocation was a reattempt and left untouched otherwise (never
written), the single-flight slot is released and no retry is scheduled;
and the outcome is independent of how the still-running callback later
settles (the `catch` branch never runs for it). -/
theorem task_timeout_win_success (opts : TaskOptions)
    (h : 0 < opts.timeout.getD 120000) (s : TaskState)
    (hrun : s.running = false)
    (lateOutcome lateOutcome2 : CallbackOutcome)
    (startTime oracleNext now : Int) :
    TaskManager.createTimeout opts = some (opts.timeout.getD 120000)
    ∧ (TaskManager.invokeTaskTimeoutWin startTime oracleNext now opts
        lateOutcome s).1.data.timeLastRun = startTime
    ∧ (TaskManager.invokeTaskTimeoutWin startTime oracleNext now opts
        lateOutcome s).1.data.timeNextRun = oracleNext
    ∧ (TaskManager.invokeTaskTimeoutWin startTime oracleNext now opts
        lateOutcome s).1.data.totalRuns = s.data.totalRuns + 1
    ∧ (TaskManager.invokeTaskTimeoutWin startTime oracleNext now opts
        lateOutcome s).1.data.numFailures
      = (if 0 < s.data.numFailures.getD 0 then none else s.data.numFailures)
    ∧ (TaskManager.invokeTaskTimeoutWin startTime oracleNext now opts
        lateOutcome s).1.data.timeNextReattempt
      = (if 0 < s.data.numFailures.getD 0 then none else s.data.timeNextReattempt)
    ∧ (TaskManager.invokeTaskTimeoutWin startTime oracleNext now opts
        lateOutcome s).1.running = false
    ∧ (TaskManager.invokeTaskTimeoutWin startTime oracleNext now opts
        lateOutcome s).2 = false
    ∧ TaskManager.invokeTaskTimeoutWin startTime oracleNext now opts
        lateOutcome s
      = TaskManager.invokeTaskTimeoutWin startTime oracleNext now opts
        lateOutcome2 s := by
  refine ⟨?_, ?_, ?_, ?_, ?_, ?_, ?_, ?_, rfl⟩ <;>
    by_cases ha : 0 < s.data.numFailures.getD 0 <;>
    simp [TaskManager.createTimeout, TaskManager.invokeTaskTimeoutWin,
      TaskManager.invokeTask, TaskManager.beginInvoke,
      TaskManager.finishInvoke, RaceWinner.settlesRejected,
      not_le.mpr h, hrun, ha]

/-- Witness for C9 at a concrete input: a 5ms timeout, a reattempt
invocation (`numFailures = some 1`, a pending `timeNextReattempt`, cron
job stopped), a callback that later rejects. -/
theorem task_timeout_win_success_witness :
    TaskManager.createTimeout ⟨some 5, none⟩
        = some ((⟨some 5, none⟩ : TaskOptions).timeout.getD 120000)
    ∧ (TaskManager.invokeTaskTimeoutWin 10 20 10 ⟨some 5, none⟩
        CallbackOutcome.rejects
        ⟨⟨"svc", "t", "* * * * * *", 0, 0, 3, some 1, some 115⟩, false, false, 0, 0⟩).1.data.timeLastRun
        = 10
    ∧ (TaskManager.invokeTaskTimeoutWin 10 20 10 ⟨some 5, none⟩
        CallbackOutcome.rejects
        ⟨⟨"svc", "t", "* * * * * *", 0, 0, 3, some 1, some 115⟩, false, false, 0, 0⟩).1.data.timeNextRun
        = 20
    ∧ (TaskManager.invokeTaskTimeoutWin 10 20 10 ⟨some 5, none⟩
        CallbackOutcome.rejects
        ⟨⟨"svc", "t", "* * * * * *", 0, 0, 3, some 1, some 115⟩, false, false, 0, 0⟩).1.data.totalRuns
        = (⟨⟨"svc", "t", "* * * * * *", 0, 0, 3, some 1, some 115⟩, false, false, 0, 0⟩ : TaskState).data.totalRuns + 1
    ∧ (TaskManager.invokeTaskTimeoutWin 10 20 10 ⟨some 5, none⟩
        CallbackOutcome.rejects
        ⟨⟨"svc", "t", "* * * * * *", 0, 0, 3, some 1, some 115⟩, false, false, 0, 0⟩).1.data.numFailures
        = (if 0 < (⟨⟨"svc", "t", "* * * * * *", 0, 0, 3, some 1, some 115⟩, false, false, 0, 0⟩ : TaskState).data.numFailures.getD 0
            then none
            else (⟨⟨"svc", "t", "* * * * * *", 0, 0, 3, some 1, some 115⟩, false, false, 0, 0⟩ : TaskState).data.numFailures)
    ∧ (TaskManager.invokeTaskTimeoutWin 10 20 10 ⟨some 5, none⟩
        CallbackOutcome.rejects
        ⟨⟨"svc", "t", "* * * * * *", 0, 0, 3, some 1, some 115⟩, false, false, 0, 0⟩).1.data.timeNextReattempt
        = (if 0 < (⟨⟨"svc", "t", "* * * * * *", 0, 0, 3, some 1, some 115⟩, false, false, 0, 0⟩ : TaskState).data.numFailures.getD 0
            then none
            else (⟨⟨"svc", "t", "* * * * * *", 0, 0, 3, some 1, some 115⟩, false, false, 0, 0⟩ : TaskState).data.timeNextReattempt)
    ∧ (TaskManager.invokeTaskTimeoutWin 10 20 10 ⟨some 5, none⟩
        CallbackOutcome.rejects
        ⟨⟨"svc", "t", "* * * * * *", 0, 0, 3, some 1, some 115⟩, false, false, 0, 0⟩).1.running
        = false
    ∧ (TaskManager.invokeTaskTimeoutWin 10 20 10 ⟨some 5, none⟩
        CallbackOutcome.rejects
        ⟨⟨"svc", "t", "* * * * * *", 0, 0, 3, some 1, some 115⟩, false, false, 0, 0⟩).2
        = false
    ∧ TaskManager.invokeTaskTimeoutWin 10 20 10 ⟨some 5, none⟩
        CallbackOutcome.rejects
        ⟨⟨"svc", "t", "* * * * * *", 0, 0, 3, some 1, some 115⟩, false, false, 0, 0⟩
      = TaskManager.invokeTaskTimeoutWin 10 20 10 ⟨some 5, none⟩
        CallbackOutcome.resolves
        ⟨⟨"svc", "t", "* * * * * *", 0, 0, 3, some 1, some 115⟩, false, false, 0, 0⟩ :=
  task_timeout_win_success ⟨some 5, none⟩ (by decide)
    ⟨⟨"svc", "t", "* * * * * *", 0, 0, 3, some 1, some 115⟩, false, false, 0, 0⟩
    rfl CallbackOutcome.rejects CallbackOutcome.resolves 10 20 10

/-! ### Event bus theorems (C7, C8) -/

/-- C7 counterexample: `flush` never removes events from `_queue`, so
with one queued event a second `flush` call dispatches it again — the
event is delivered twice, not exactly once. -/
theorem flush_redelivers_queued_events :
    (EventManager.flush (EventManager.flush
        ⟨Status.online, [⟨"evt", 0⟩], []⟩)).delivered
      = [⟨"evt", 0⟩, ⟨"evt", 0⟩]
    ∧ (EventManager.flush (EventManager.flush
        ⟨Status.online, [⟨"evt", 0⟩], []⟩)).delivered
      ≠ [⟨"evt", 0⟩] := by
  refine ⟨rfl, ?_⟩
  decide

/-- C7 as amended: calling `flush` on an empty queue is a no-op; but
`flush` leaves the queue unchanged, so each call while the bot is online
dispatches every queued event once more — two flushes after events were
queued deliver each queued event exactly twice, not once. -/
theorem flush_empty_noop_each_call_redispatches (s : EventManagerState) :
    (s.queue = [] → EventManager.flush s = s)
    ∧ (s.status = Status.online ∨ s.status = Status.stopping →
        (EventManager.flush s).queue = s.queue
        ∧ (EventManager.flush s).delivered = s.delivered ++ s.queue)
    ∧ (s.status = Status.online → s.delivered = [] →
        (EventManager.flush (EventManager.flush s)).delivered
          = s.queue ++ s.queue) := by
  refine ⟨?_, ?_, ?_⟩
  · intro hq
    obtain ⟨st, q, dl⟩ := s
    obtain rfl : q = [] := hq
    unfold EventManager.flush
    split <;> simp
  · intro hs
    simp [EventManager.flush, hs]
  · intro hs hd
    simp [EventManager.flush, hs, hd]

/-- Witness for C7's amended statement at a concrete input. -/
theorem flush_empty_noop_each_call_redispatches_witness :
    (((⟨Status.online, [⟨"evt", 0⟩], []⟩ : EventManagerState).queue = [] →
        EventManager.flush ⟨Status.online, [⟨"evt", 0⟩], []⟩
          = ⟨Status.online, [⟨"evt", 0⟩], []⟩)
    ∧ ((⟨Status.online, [⟨"evt", 0⟩], []⟩ : EventManagerState).status = Status.online
        ∨ (⟨Status.online, [⟨"evt", 0⟩], []⟩ : EventManagerState).status = Status.stopping →
        (EventManager.flush ⟨Status.online, [⟨"evt", 0⟩], []⟩).queue
          = (⟨Status.online, [⟨"evt", 0⟩], []⟩ : EventManagerState).queue
        ∧ (EventManager.flush ⟨Status.online, [⟨"evt", 0⟩], []⟩).delivered
          = (⟨Status.online, [⟨"evt", 0⟩], []⟩ : EventManagerState).delivered
            ++ (⟨Status.online, [⟨"evt", 0⟩], []⟩ : EventManagerState).queue)
    ∧ ((⟨Status.online, [⟨"evt", 0⟩], []⟩ : EventManagerState).status = Status.online →
        (⟨Status.online, [⟨"evt", 0⟩], []⟩ : EventManagerState).delivered = [] →
        (EventManager.flush (EventManager.flush
          ⟨Status.online, [⟨"evt", 0⟩], []⟩)).delivered
          = (⟨Status.online, [⟨"evt", 0⟩], []⟩ : EventManagerState).queue
            ++ (⟨Status.online, [⟨"evt", 0⟩], []⟩ : EventManagerState).queue)) :=
  flush_empty_noop_each_call_redispatches ⟨Status.online, [⟨"evt", 0⟩], []⟩

/-- C8 counterexample: `invoke` is an `async` method, so the `throw` on a
non-string event name becomes a rejection of the returned promise and the
call never throws synchronously — the claimed equivalence "throws
synchronously iff the name is not a string" fails at a non-string name. -/
theorem invoke_nonstring_does_not_throw_synchronously :
    (EventManager.invoke Status.online [] JsName.notStr).syncThrow = false
    ∧ ¬ ((EventManager.invoke Status.online [] JsName.notStr).syncThrow = true
          ↔ JsName.notStr.isString = false) := by
  refine ⟨rfl, ?_⟩
  decide

/-- C8 as amended: `invoke` never throws synchronously for any input; the
future it returns rejects exactly when the event name is not a string; and
for a string name, while the bot is online or stopping, every registered
handler is invoked in registration order, each handler failure (a
synchronous throw or an asynchronous rejection) is logged and swallowed,
and the future resolves once all handlers have settled. -/
theorem invoke_error_isolation (status : Status)
    (handlers : List HandlerBehavior) (name : JsName) (str0 : String) :
    (EventManager.invoke status handlers name).syncThrow = false
    ∧ (name.isString = false →
        (EventManager.invoke status handlers name).outcome = InvokeOutcome.rejects)
    ∧ (name.isString = true →
        (EventManager.invoke status handlers name).outcome ≠ InvokeOutcome.rejects)
    ∧ (name = JsName.str str0 →
        (status = Status.online ∨ status = Status.stopping) →
        (EventManager.invoke status handlers name).outcome = InvokeOutcome.resolves
        ∧ (EventManager.invoke status handlers name).handlersRun = handlers
        ∧ (EventManager.invoke status handlers name).loggedErrors
            = (handlers.filter (fun hb => hb ≠ HandlerBehavior.succeeds)).length) := by
  refine ⟨?_, ?_, ?_, ?_⟩
  · cases name with
    | str s =>
      by_cases hs : status ≠ Status.online ∧ status ≠ Status.stopping <;>
        simp [EventManager.invoke, hs]
    | notStr => rfl
  · intro hn
    cases name with
    | str s => simp [JsName.isString] at hn
    | notStr => rfl
  · intro hn
    cases name with
    | str s =>
      by_cases hs : status ≠ Status.online ∧ status ≠ Status.stopping <;>
        simp [EventManager.invoke, hs]
    | notStr => simp [JsName.isString] at hn
  · intro hn hs
    subst hn
    have hcond : ¬ (status ≠ Status.online ∧ status ≠ Status.stopping) := by
      rcases hs with hs | hs <;> simp [hs]
    simp [EventManager.invoke, hcond]

/-- Witness for C8's amended statement at a concrete input: one handler of
each behaviour, bot online. -/
theorem invoke_error_isolation_witness :
    (EventManager.invoke Status.online
        [HandlerBehavior.succeeds, HandlerBehavior.throwsSync,
         HandlerBehavior.rejectsAsync] (JsName.str "evt")).syncThrow = false
    ∧ ((JsName.str "evt").isString = false →
        (EventManager.invoke Status.online
          [HandlerBehavior.succeeds, HandlerBehavior.throwsSync,
           HandlerBehavior.rejectsAsync] (JsName.str "evt")).outcome
          = InvokeOutcome.rejects)
    ∧ ((JsName.str "evt").isString = true →
        (EventManager.invoke Status.online
          [HandlerBehavior.succeeds, HandlerBehavior.throwsSync,
           HandlerBehavior.rejectsAsync] (JsName.str "evt")).outcome
          ≠ InvokeOutcome.rejects)
    ∧ (JsName.str "evt" = JsName.str "evt" →
        (Status.online = Status.online ∨ Status.online = Status.stopping) →
        (EventManager.invoke Status.online
          [HandlerBehavior.succeeds, HandlerBehavior.throwsSync,
           HandlerBehavior.rejectsAsync] (JsName.str "evt")).outcome
          = InvokeOutcome.resolves
        ∧ (EventManager.invoke Status.online
          [HandlerBehavior.succeeds, HandlerBehavior.throwsSync,
           HandlerBehavior.rejectsAsync] (JsName.str "evt")).handlersRun
          = [HandlerBehavior.succeeds, HandlerBehavior.throwsSync,
             HandlerBehavior.rejectsAsync]
        ∧ (EventManager.invoke Status.online
          [HandlerBehavior.succeeds, HandlerBehavior.throwsSync,
           HandlerBehavior.rejectsAsync] (JsName.str "evt")).loggedErrors
          = ([HandlerBehavior.succeeds, HandlerBehavior.throwsSync,
              HandlerBehavior.rejectsAsync].filter
              (fun hb => hb ≠ HandlerBehavior.succeeds)).length) :=
  invoke_error_isolation Status.online
    [HandlerBehavior.succeeds, HandlerBehavior.throwsSync,
     HandlerBehavior.rejectsAsync] (JsName.str "evt") "evt"

/-! ### Promise timeout source theorem (C10) -/

lemma PromiseTimeoutSource.applyOp_isFinishedField
    (t : PromiseTimeoutSource) (op : TimeoutSourceOp) :
    (PromiseTimeoutSource.applyOp t op).isFinishedField = t.isFinishedField := by
  cases op with
  | fire o =>
    cases o <;>
      simp [PromiseTimeoutSource.applyOp, PromiseTimeoutSource.executeStep] <;>
      split <;> rfl
  | cancelCall =>
    simp [PromiseTimeoutSource.applyOp, PromiseTimeoutSource.cancel]
    split <;> rfl

/-- C10: the private `_isFinished` field of `PromiseTimeoutSource` is
never assigned by any method, so at every reachable point of the source's
lifetime — after any sequence of timer firings (with the closure either
completing or throwing) and `cancel()` calls — the `isFinished` getter
returns `false` and the `isPending` getter returns `true`. -/
theorem timeout_source_never_finished (ops : List TimeoutSourceOp) :
    (PromiseTimeoutSource.runOps PromiseTimeoutSource.init ops).isFinished
        = false
    ∧ (PromiseTimeoutSource.runOps PromiseTimeoutSource.init ops).isPending
        = true := by
  have hfield : ∀ (t : PromiseTimeoutSource) (ops2 : List TimeoutSourceOp),
      (PromiseTimeoutSource.runOps t ops2).isFinishedField = t.isFinishedField := by
    intro t ops2
    induction ops2 generalizing t with
    | nil => rfl
    | cons op rest ih =>
      rw [PromiseTimeoutSource.runOps, List.foldl_cons]
      rw [show List.foldl PromiseTimeoutSource.applyOp
            (PromiseTimeoutSource.applyOp t op) rest
          = PromiseTimeoutSource.runOps (PromiseTimeoutSource.applyOp t op) rest
          from rfl]
      rw [ih, PromiseTimeoutSource.applyOp_isFinishedField]
  constructor
  · rw [PromiseTimeoutSource.isFinished, hfield]
    rfl
  · rw [PromiseTimeoutSource.isPending, hfield]
    rfl
